import Mathlib

/-!
Verification of the Slack remote MCP server (src/index.ts) against its
natural-language specification. The server is a stateless HTTP-to-JSON-RPC
shim; we embed its request pipeline (body parsing, authentication middleware,
method dispatch, the per-request Slack client and its outbound calls) as pure
Lean functions and prove the specified properties about them.

Modelling conventions:
 - JSON values are the inductive `Json` below; a JavaScript `undefined`
   (absent key, absent header) is `Option.none` at the use site, never a
   `Json` constructor, matching how `JSON.stringify` drops such keys.
 - The one outbound side effect, `fetch` + `response.json()`, is an oracle
   `Upstream : UpstreamCall -> Except String Json`: `Except.error msg` is a
   thrown network/parse failure with message `msg`, `Except.ok j` a parsed
   body. Every client method also returns the list of calls it issued, in
   order, so that theorems can speak about which upstream requests happen.
 - JavaScript truthiness is `jsTruthy`; the idioms `x || null`, `x || {}` and
   `!s` on header strings are `jsOrNull`, `jsOrEmptyObj` and `jsFalsyStr`.
-/

namespace SlackMcp

/-- A JSON value, as produced by `express.json()` body parsing and by the
upstream `response.json()`. Numbers are modelled as integers: every numeric
constant in the program (error codes, limits, defaults) is an integer, and no
claim depends on float behaviour. -/
inductive Json where
  | null : Json
  | bool : Bool → Json
  | num : Int → Json
  | str : String → Json
  | arr : List Json → Json
  | obj : List (String × Json) → Json
deriving Repr, Inhabited

/-- JavaScript truthiness of a JSON value (`if (x)`): `null`, `false`, `0`
and the empty string are falsy, everything else (arrays and objects
included) is truthy. -/
def jsTruthy : Json → Bool
  | Json.null => false
  | Json.bool b => b
  | Json.num n => n != 0
  | Json.str s => s != ""
  | Json.arr _ => true
  | Json.obj _ => true

/-- Truthiness of a possibly-`undefined` value (`undefined` is falsy). -/
def jsTruthyOpt : Option Json → Bool
  | some j => jsTruthy j
  | none => false

/-- First-match field lookup in a JSON object member list. -/
def getField : List (String × Json) → String → Option Json
  | [], _ => none
  | (k, v) :: ms, key => if k = key then some v else getField ms key

/-- JavaScript property access `j.key`: `none` models `undefined`, both for a
missing key and for access on a non-object. -/
def Json.get : Json → String → Option Json
  | Json.obj ms, key => getField ms key
  | _, _ => none

/-- The idiom `x || null` applied to a possibly-absent value: a truthy value
passes through, a falsy or absent one becomes JSON `null`. -/
def jsOrNull (o : Option Json) : Json :=
  match o with
  | some j => if jsTruthy j then j else Json.null
  | none => Json.null

/-- The idiom `x || \x7b\x7d`: a truthy value passes through, a falsy or
absent one becomes the empty object. -/
def jsOrEmptyObj (o : Option Json) : Json :=
  match o with
  | some j => if jsTruthy j then j else Json.obj []
  | none => Json.obj []

/-- The idiom `!s` on an optional header string: true when the header is
absent or its value is the empty string. -/
def jsFalsyStr : Option String → Bool
  | none => true
  | some s => s = ""

/-- `body.method === m`: true exactly when the `method` field is the string
`m` (a missing field or a non-string value matches no string case). -/
def methodIs (body : Json) (m : String) : Bool :=
  match body.get ("method") with
  | some (Json.str s) => s = m
  | _ => false

/-- String escaping of JSON serialization for one character (the escapes the
program's data can contain; other characters pass through verbatim). -/
def escChar (ch : Char) : String :=
  if ch = '\"' then "\\\""
  else if ch = '\\' then "\\\\"
  else if ch = '\n' then "\\n"
  else if ch = '\t' then "\\t"
  else if ch = '\r' then "\\r"
  else String.singleton ch

/-- JSON string escaping. -/
def escape (s : String) : String := String.join (s.toList.map escChar)

mutual
/-- `JSON.stringify` of a value. The source pretty-prints with indent 2
(`JSON.stringify(v, null, 2)`); the inserted whitespace is not modelled, as
every property under proof depends only on the JSON value encoded, which is
identical. -/
def jsonStringify : Json → String
  | Json.null => "null"
  | Json.bool b => if b then "true" else "false"
  | Json.num n => toString n
  | Json.str s => "\"" ++ escape s ++ "\""
  | Json.arr xs => "[" ++ stringifyArr xs ++ "]"
  | Json.obj ms => "\x7b" ++ stringifyObj ms ++ "\x7d"

/-- Array elements of `jsonStringify`, comma-separated. -/
def stringifyArr : List Json → String
  | [] => ""
  | [x] => jsonStringify x
  | x :: y :: xs => jsonStringify x ++ "," ++ stringifyArr (y :: xs)

/-- Object members of `jsonStringify`, comma-separated. -/
def stringifyObj : List (String × Json) → String
  | [] => ""
  | [(k, v)] => "\"" ++ escape k ++ "\":" ++ jsonStringify v
  | (k, v) :: m :: ms =>
      "\"" ++ escape k ++ "\":" ++ jsonStringify v ++ "," ++ stringifyObj (m :: ms)
end

mutual
/-- JavaScript template-literal display of a value (backtick interpolation),
used by the `Unknown tool:` and `Method not found:` messages: strings embed
verbatim, `null` displays as "null", arrays join their elements with commas
(null elements as empty), objects display as "[object Object]". -/
def jsTemplateVal : Json → String
  | Json.null => "null"
  | Json.bool b => if b then "true" else "false"
  | Json.num n => toString n
  | Json.str s => s
  | Json.arr xs => jsTemplateArr xs
  | Json.obj _ => "[object Object]"

/-- Array-join display inside a template literal. -/
def jsTemplateArr : List Json → String
  | [] => ""
  | [Json.null] => ""
  | [x] => jsTemplateVal x
  | Json.null :: y :: xs => "," ++ jsTemplateArr (y :: xs)
  | x :: y :: xs => jsTemplateVal x ++ "," ++ jsTemplateArr (y :: xs)
end

/-- Template-literal display of a possibly-`undefined` value. -/
def jsTemplate : Option Json → String
  | none => "undefined"
  | some j => jsTemplateVal j

/-- Process-wide configuration read once at startup: the shared secret
(default the empty string) and the require-auth flag (default true). Port
and host affect only socket binding, not request handling, and are omitted. -/
structure Config where
  SECRET_KEY : String
  REQUIRE_AUTH : Bool

/-- An incoming HTTP request as the express handlers see it: route data, the
JSON-parsed body, and the four headers the program reads. A `none` header is
an absent header; `some ""` is a header sent with an empty value (express
delivers it as the empty string, which is falsy). -/
structure HttpRequest where
  path : String
  httpMethod : String
  body : Json
  xSecretKey : Option String
  xSlackBotToken : Option String
  xSlackTeamId : Option String
  xSlackChannelIds : Option String

/-- An HTTP response: status code (`res.status(..)`, default 200 for
`res.json`) and the JSON body passed to `res.json`. -/
structure HttpResponse where
  status : Nat
  body : Json
deriving Repr

/-- One outbound Slack Web API request, as built by a `SlackClient` method:
the endpoint, the bearer token attached in the Authorization header, and the
data placed in the query string or JSON body. `Option Json` fields carry raw
tool-argument values: `none` is an absent (`undefined`) argument. -/
inductive UpstreamCall where
  | conversationsList : String → Int → String → Option String → UpstreamCall
  | conversationsInfo : String → String → UpstreamCall
  | chatPostMessage : String → Option Json → Option Json → UpstreamCall
  | chatPostReply : String → Option Json → Option Json → Option Json → UpstreamCall
  | reactionsAdd : String → Option Json → Option Json → Option Json → UpstreamCall
  | conversationsHistory : String → Option Json → Int → UpstreamCall
  | conversationsReplies : String → Option Json → Option Json → UpstreamCall
  | usersList : String → Int → String → Option String → UpstreamCall
  | usersProfileGet : String → Option Json → UpstreamCall
deriving Repr

/-- The network oracle: what `fetch` + `response.json()` yields for a given
outbound call. `Except.error msg` models a thrown failure (network error,
JSON parse error) with message `msg`. -/
def Upstream : Type := UpstreamCall → Except String Json

/-- The per-request Slack client: bearer token, team id, and the optional
comma-separated channel-id list, all taken from the request headers. -/
structure SlackClient where
  botToken : String
  teamId : String
  channelIds : Option String

/-- The `if (cursor)` guard before appending the cursor query parameter: an
absent or empty cursor is not sent. -/
def truthyCursor : Option String → Option String
  | none => none
  | some s => if s = "" then none else some s

/-- The `if (!predefinedChannelIds)` guard in `getChannels`: an absent or
empty channel-ids header selects the paginated-list branch. -/
def predef : Option String → Option String
  | none => none
  | some s => if s = "" then none else some s

/-- The filter applied to each `conversations.info` response `data`:
`data.ok && data.channel && !data.channel.is_archived` keeps `data.channel`. -/
def keepChannel (data : Json) : Option Json :=
  match data.get ("channel") with
  | some ch =>
      if jsTruthyOpt (data.get ("ok")) && jsTruthy ch
          && !(jsTruthyOpt (ch.get ("is_archived"))) then some ch else none
  | none => none

/-- The sequential per-id lookup loop of `getChannels`: one
`conversations.info` call per id, in order, short-circuiting when a call
throws (the thrown error propagates out of the `for` loop). -/
def lookupLoop (up : Upstream) (bot : String) :
    List String → Except String (List Json) × List UpstreamCall
  | [] => (Except.ok [], [])
  | id :: rest =>
    let call := UpstreamCall.conversationsInfo bot id
    match up call with
    | Except.error e => (Except.error e, [call])
    | Except.ok data =>
      match lookupLoop up bot rest with
      | (Except.error e, calls) => (Except.error e, call :: calls)
      | (Except.ok chans, calls) =>
        match keepChannel data with
        | some ch => (Except.ok (ch :: chans), call :: calls)
        | none => (Except.ok chans, call :: calls)

/-- The ids derived from a channel-ids header value: split on commas, each
trimmed. -/
def idsOf (s : String) : List String := (s.splitOn (",")).map (fun id => id.trim)

/-- The synthesized `getChannels` result of the fixed-channel-list branch. -/
def listChannelsResult (chans : List Json) : Json :=
  Json.obj [("ok", Json.bool true), ("channels", Json.arr chans),
    ("response_metadata", Json.obj [("next_cursor", Json.str (""))])]

/-- `SlackClient.getChannels(limit = 100, cursor)`: with no configured
channel-id list, one `conversations.list` call with the limit capped at 200;
with a configured list, one `conversations.info` lookup per id and a
synthesized list-shaped result. -/
def SlackClient.getChannels (c : SlackClient) (up : Upstream)
    (limit : Option Int) (cursor : Option String) :
    Except String Json × List UpstreamCall :=
  match predef c.channelIds with
  | none =>
    let call := UpstreamCall.conversationsList c.botToken
      (min (limit.getD 100) 200) c.teamId (truthyCursor cursor)
    (up call, [call])
  | some s =>
    match lookupLoop up c.botToken (idsOf s) with
    | (Except.error e, calls) => (Except.error e, calls)
    | (Except.ok chans, calls) => (Except.ok (listChannelsResult chans), calls)

/-- `SlackClient.postMessage`: one `chat.postMessage` POST with body
channel/text. -/
def SlackClient.postMessage (c : SlackClient) (up : Upstream)
    (channel_id text : Option Json) : Except String Json × List UpstreamCall :=
  let call := UpstreamCall.chatPostMessage c.botToken channel_id text
  (up call, [call])

/-- `SlackClient.postReply`: one `chat.postMessage` POST with body
channel/thread_ts/text (same endpoint as `postMessage`; kept as a distinct
constructor because the request body carries the extra thread marker). -/
def SlackClient.postReply (c : SlackClient) (up : Upstream)
    (channel_id thread_ts text : Option Json) :
    Except String Json × List UpstreamCall :=
  let call := UpstreamCall.chatPostReply c.botToken channel_id thread_ts text
  (up call, [call])

/-- `SlackClient.addReaction`: one `reactions.add` POST. -/
def SlackClient.addReaction (c : SlackClient) (up : Upstream)
    (channel_id timestamp reaction : Option Json) :
    Except String Json × List UpstreamCall :=
  let call := UpstreamCall.reactionsAdd c.botToken channel_id timestamp reaction
  (up call, [call])

/-- `SlackClient.getChannelHistory(channel_id, limit = 10)`: one
`conversations.history` GET; the limit is sent uncapped. -/
def SlackClient.getChannelHistory (c : SlackClient) (up : Upstream)
    (channel_id : Option Json) (limit : Option Int) :
    Except String Json × List UpstreamCall :=
  let call := UpstreamCall.conversationsHistory c.botToken channel_id (limit.getD 10)
  (up call, [call])

/-- `SlackClient.getThreadReplies`: one `conversations.replies` GET. -/
def SlackClient.getThreadReplies (c : SlackClient) (up : Upstream)
    (channel_id thread_ts : Option Json) :
    Except String Json × List UpstreamCall :=
  let call := UpstreamCall.conversationsReplies c.botToken channel_id thread_ts
  (up call, [call])

/-- `SlackClient.getUsers(limit = 100, cursor)`: one `users.list` GET with
the limit capped at 200. -/
def SlackClient.getUsers (c : SlackClient) (up : Upstream)
    (limit : Option Int) (cursor : Option String) :
    Except String Json × List UpstreamCall :=
  let call := UpstreamCall.usersList c.botToken
    (min (limit.getD 100) 200) c.teamId (truthyCursor cursor)
  (up call, [call])

/-- `SlackClient.getUserProfile`: one `users.profile.get` GET. -/
def SlackClient.getUserProfile (c : SlackClient) (up : Upstream)
    (user_id : Option Json) : Except String Json × List UpstreamCall :=
  let call := UpstreamCall.usersProfileGet c.botToken user_id
  (up call, [call])

/-- A string-typed property of a tool input schema. -/
def propStr (desc : String) : Json :=
  Json.obj [("type", Json.str ("string")), ("description", Json.str desc)]

/-- A number-typed property of a tool input schema, with its default. -/
def propNum (desc : String) (d : Int) : Json :=
  Json.obj [("type", Json.str ("number")), ("description", Json.str desc),
    ("default", Json.num d)]

/-- An input schema with no required properties. -/
def schemaOpt (props : List (String × Json)) : Json :=
  Json.obj [("type", Json.str ("object")), ("properties", Json.obj props)]

/-- An input schema with a required-property list. -/
def schemaReq (props : List (String × Json)) (req : List String) : Json :=
  Json.obj [("type", Json.str ("object")), ("properties", Json.obj props),
    ("required", Json.arr (req.map Json.str))]

/-- One tool descriptor. -/
def toolDesc (name desc : String) (schema : Json) : Json :=
  Json.obj [("name", Json.str name), ("description", Json.str desc),
    ("inputSchema", schema)]

/-- The thread-timestamp argument description shared by two tools. -/
def threadTsDesc : String :=
  "The timestamp of the parent message in the format \x271234567890.123456\x27. Timestamps in the format without the period can be converted by adding the period such that 6 numbers come after it."

/-- `getToolsList()`: the static list of the eight tool descriptors. Returned
by `tools/list` and by `GET /tools`; never mutated. -/
def getToolsList : Json :=
  Json.arr [
    toolDesc ("slack_list_channels")
      ("List public and private channels that the bot is a member of, or pre-defined channels in the workspace with pagination")
      (schemaOpt [
        ("limit", propNum ("Maximum number of channels to return (default 100, max 200)") 100),
        ("cursor", propStr ("Pagination cursor for next page of results"))]),
    toolDesc ("slack_post_message")
      ("Post a new message to a Slack channel or direct message to user")
      (schemaReq [
        ("channel_id", propStr ("The ID of the channel or user to post to")),
        ("text", propStr ("The message text to post"))]
        [("channel_id"), ("text")]),
    toolDesc ("slack_reply_to_thread")
      ("Reply to a specific message thread in Slack")
      (schemaReq [
        ("channel_id", propStr ("The ID of the channel containing the thread")),
        ("thread_ts", propStr threadTsDesc),
        ("text", propStr ("The reply text"))]
        [("channel_id"), ("thread_ts"), ("text")]),
    toolDesc ("slack_add_reaction")
      ("Add a reaction emoji to a message")
      (schemaReq [
        ("channel_id", propStr ("The ID of the channel containing the message")),
        ("timestamp", propStr ("The timestamp of the message to react to")),
        ("reaction", propStr ("The name of the emoji reaction (without ::)"))]
        [("channel_id"), ("timestamp"), ("reaction")]),
    toolDesc ("slack_get_channel_history")
      ("Get recent messages from a channel")
      (schemaReq [
        ("channel_id", propStr ("The ID of the channel")),
        ("limit", propNum ("Number of messages to retrieve (default 10)") 10)]
        [("channel_id")]),
    toolDesc ("slack_get_thread_replies")
      ("Get all replies in a message thread")
      (schemaReq [
        ("channel_id", propStr ("The ID of the channel containing the thread")),
        ("thread_ts", propStr threadTsDesc)]
        [("channel_id"), ("thread_ts")]),
    toolDesc ("slack_get_users")
      ("Get a list of all users in the workspace with their basic profile information")
      (schemaOpt [
        ("cursor", propStr ("Pagination cursor for next page of results")),
        ("limit", propNum ("Maximum number of users to return (default 100, max 200)") 100)]),
    toolDesc ("slack_get_user_profile")
      ("Get detailed profile information for a specific user")
      (schemaReq [
        ("user_id", propStr ("The ID of the user"))]
        [("user_id")])]

/-- The eight tool names of the dispatch switch, in source order. -/
def toolNames : List String :=
  [("slack_list_channels"), ("slack_post_message"), ("slack_reply_to_thread"),
   ("slack_add_reaction"), ("slack_get_channel_history"),
   ("slack_get_thread_replies"), ("slack_get_users"), ("slack_get_user_profile")]

/-- The string value of `params.name` when it is a string; `switch` with
only string cases sends every non-string (or absent) name to `default`, so
collapsing those to `none` preserves the dispatch behaviour exactly. -/
def toolStr : Option Json → Option String
  | some (Json.str s) => some s
  | _ => none

/-- Whether `params.name` matches a case of the dispatch switch. -/
def isKnownTool (t : Option Json) : Bool :=
  match toolStr t with
  | some s => decide (s ∈ toolNames)
  | none => false

/-- A numeric tool argument: `none` for an absent argument. The tools' numeric
arguments are declared `number` in their schemas; a non-numeric JSON value in
such a position would undergo JavaScript numeric coercion, which is not
modelled (no claim concerns it). -/
def argNum (args : Json) (k : String) : Option Int :=
  match args.get k with
  | some (Json.num n) => some n
  | _ => none

/-- A string tool argument: `none` for an absent argument (same note as
`argNum` for non-string values in string positions). -/
def argStr (args : Json) (k : String) : Option String :=
  match args.get k with
  | some (Json.str s) => some s
  | _ => none

/-- The `switch (toolName)` of `handleToolCall`: each case calls one client
method with the raw argument values; `default` throws
`Unknown tool: <name>`. Returns the tool response (or the thrown message)
and the outbound calls issued. -/
def dispatchTool (toolName : Option Json) (args : Json) (c : SlackClient)
    (up : Upstream) : Except String Json × List UpstreamCall :=
  let name := toolStr toolName
  if name = some ("slack_list_channels") then
    c.getChannels up (argNum args ("limit")) (argStr args ("cursor"))
  else if name = some ("slack_post_message") then
    c.postMessage up (args.get ("channel_id")) (args.get ("text"))
  else if name = some ("slack_reply_to_thread")  then
    c.postReply up (args.get ("channel_id")) (args.get ("thread_ts")) (args.get ("text"))
  else if name = some ("slack_add_reaction") then
    c.addReaction up (args.get ("channel_id")) (args.get ("timestamp")) (args.get ("reaction"))
  else if name = some ("slack_get_channel_history") then
    c.getChannelHistory up (args.get ("channel_id")) (argNum args ("limit"))
  else if name = some ("slack_get_thread_replies") then
    c.getThreadReplies up (args.get ("channel_id")) (args.get ("thread_ts"))
  else if name = some ("slack_get_users") then
    c.getUsers up (argNum args ("limit")) (argStr args ("cursor"))
  else if name = some ("slack_get_user_profile") then
    c.getUserProfile up (args.get ("user_id"))
  else
    (Except.error ("Unknown tool: " ++ jsTemplate toolName), [])

/-- `error.message || String(error)`: a thrown `Error` with an empty message
displays as "Error" under `String(error)`. -/
def jsErrMessage (e : String) : String := if e = "" then "Error" else e

/-- The tool-level soft-failure payload serialized into the content text. -/
def failedJson (msg : String) : Json :=
  Json.obj [("error", Json.str msg), ("status", Json.str ("failed"))]

/-- The single-element content wrapper of `handleToolCall`: the payload is
re-serialized as text under a `type: "text"` tag. -/
def contentResult (j : Json) : Json :=
  Json.obj [("content", Json.arr [Json.obj [("type", Json.str ("text")),
    ("text", Json.str (jsonStringify j))]])]

/-- `handleToolCall(toolName, args, slackClient)`: dispatch, then wrap the
response in a content array; any thrown error (including the unknown-tool
throw and upstream failures) is caught and converted to the
error/status-failed payload — the function itself never throws. -/
def handleToolCall (toolName : Option Json) (args : Json) (c : SlackClient)
    (up : Upstream) : Json × List UpstreamCall :=
  match dispatchTool toolName args c up with
  | (Except.ok resp, calls) => (contentResult resp, calls)
  | (Except.error e, calls) => (contentResult (failedJson (jsErrMessage e)), calls)

/-- A JSON-RPC error object. -/
def errObj (code : Int) (msg : String) : Json :=
  Json.obj [("code", Json.num code), ("message", Json.str msg)]

/-- The `id` member of a response object: an absent request id
(`undefined`) yields no member at all, because `JSON.stringify` drops
`undefined`-valued keys in `res.json`. -/
def idField : Option Json → List (String × Json)
  | some j => [("id", j)]
  | none => []

/-- A JSON-RPC response body of the main handler:
`jsonrpc: "2.0"`, one `result` or `error` member, and the request id echoed
verbatim (the member omitted when the id was absent). -/
def rpcResponse (key : String) (v : Json) (requestId : Option Json) : Json :=
  Json.obj ([("jsonrpc", Json.str ("2.0")), (key, v)] ++ idField requestId)

/-- The outcome of the authentication middleware: pass the request on
(`next()`), or answer it with a 401 response. -/
inductive AuthResult where
  | allow : AuthResult
  | reject : HttpResponse → AuthResult

/-- The 401 rejection body of the middleware. Its `id` member is
`req.body?.id || null`: a truthy id passes through, a falsy or absent one is
replaced by JSON `null`. -/
def authReject (code : Int) (msg : String) (req : HttpRequest) : HttpResponse :=
  { status := 401,
    body := Json.obj [("jsonrpc", Json.str ("2.0")), ("error", errObj code msg),
      ("id", jsOrNull (req.body.get ("id")))] }

/-- `authMiddleware`: skip when auth is not required or no secret is
configured (fail-open, with a warning log); otherwise, for `POST /mcp` with
body method `tools/call`, demand an `x-secret-key` header exactly equal to
the secret — an absent or empty header rejects with "Authentication
required...", a non-matching one with "Invalid authentication...", both 401
code -32001; every other method, path or HTTP verb passes through. (The
discovery-method branch only logs; the `try/catch` around the body is
unreachable here since property access on parsed JSON cannot throw.) -/
def authMiddleware (cfg : Config) (req : HttpRequest) : AuthResult :=
  if cfg.REQUIRE_AUTH = false then AuthResult.allow
  else if cfg.SECRET_KEY = "" then AuthResult.allow
  else if req.path = "/mcp" ∧ req.httpMethod = "POST" then
    if methodIs req.body ("tools/call") then
      if jsFalsyStr req.xSecretKey then
        AuthResult.reject (authReject (-32001) ("Authentication required for tool execution") req)
      else if req.xSecretKey ≠ some cfg.SECRET_KEY then
        AuthResult.reject (authReject (-32001) ("Invalid authentication for tool execution") req)
      else AuthResult.allow
    else AuthResult.allow
  else AuthResult.allow

/-- The fixed `initialize` result: protocol version, capabilities and server
info, independent of the request's params. -/
def initResult : Json :=
  Json.obj [
    ("protocolVersion", Json.str ("2024-11-05")),
    ("capabilities", Json.obj [
      ("tools", Json.obj []),
      ("prompts", Json.null),
      ("resources", Json.null)]),
    ("serverInfo", Json.obj [
      ("name", Json.str ("slack-mcp-server")),
      ("version", Json.str ("1.0.0"))])]

/-- The missing-credentials error message of the `tools/call` branch. -/
def credsMsg : String :=
  "Missing required Slack credentials in headers: x-slack-bot-token and x-slack-team-id are required"

/-- `params.name` as the handler computes it (`params` is `body.params ||`
the empty object). -/
def reqToolName (req : HttpRequest) : Option Json :=
  (jsOrEmptyObj (req.body.get ("params"))).get ("name")

/-- `params.arguments || \x7b\x7d` as the handler computes it. -/
def reqToolArgs (req : HttpRequest) : Json :=
  jsOrEmptyObj ((jsOrEmptyObj (req.body.get ("params"))).get ("arguments"))

/-- The Slack client the handler constructs from the three credential
headers (only reached when both required headers are truthy, so the
defaults never surface). -/
def reqClient (req : HttpRequest) : SlackClient :=
  { botToken := req.xSlackBotToken.getD "",
    teamId := req.xSlackTeamId.getD "",
    channelIds := req.xSlackChannelIds }

/-- The `POST /mcp` handler, after the middleware: route on the body method.
`initialize` and `tools/list` answer fixed results; `tools/call` first
demands truthy `x-slack-bot-token` and `x-slack-team-id` headers (else error
-32602 with no upstream call), then builds a fresh client and runs
`handleToolCall`, always wrapping its value as a `result`; any other method
answers error -32601. Every response here is HTTP 200 with the request id
echoed verbatim. -/
def mcpPost (req : HttpRequest) (up : Upstream) : HttpResponse × List UpstreamCall :=
  let requestId := req.body.get ("id")
  if methodIs req.body ("initialize") then
    ({ status := 200, body := rpcResponse ("result") initResult requestId }, [])
  else if methodIs req.body ("tools/list") then
    ({ status := 200,
       body := rpcResponse ("result") (Json.obj [("tools", getToolsList)]) requestId }, [])
  else if methodIs req.body ("tools/call") then
    if jsFalsyStr req.xSlackBotToken || jsFalsyStr req.xSlackTeamId then
      ({ status := 200,
         body := rpcResponse ("error") (errObj (-32602) credsMsg) requestId }, [])
    else
      let hr := handleToolCall (reqToolName req) (reqToolArgs req) (reqClient req) up
      ({ status := 200, body := rpcResponse ("result") hr.1 requestId }, hr.2)
  else
    ({ status := 200,
       body := rpcResponse ("error")
         (errObj (-32601) ("Method not found: " ++ jsTemplate (req.body.get ("method"))))
         requestId }, [])

/-- The `catch` clause of the `POST /mcp` handler: error -32603 with the
request id under the same `|| null` falsy replacement as the middleware.
In this embedding nothing inside the `try` can throw (`handleToolCall`
catches its own errors and property access on parsed JSON is total), so the
clause is transcribed on its own for analysis of its id handling. -/
def internalErrorResponse (req : HttpRequest) (msg : String) : HttpResponse :=
  { status := 200,
    body := Json.obj [("jsonrpc", Json.str ("2.0")),
      ("error", errObj (-32603) ("Internal error: " ++ msg)),
      ("id", jsOrNull (req.body.get ("id")))] }

/-- The `GET /health` response body. -/
def healthBody : Json :=
  Json.obj [("status", Json.str ("healthy")), ("service", Json.str ("mcp-slack-server"))]

/-- The `GET /` response body. -/
def rootBody : Json :=
  Json.obj [
    ("service", Json.str ("MCP Slack Server")),
    ("version", Json.str ("1.0.0")),
    ("description", Json.str ("Model Context Protocol server for Slack integration")),
    ("endpoints", Json.obj [
      ("/health", Json.str ("Health check endpoint")),
      ("/mcp", Json.str ("MCP JSON-RPC endpoint")),
      ("/tools", Json.str ("List available tools"))])]

/-- The full express pipeline for one request: the middleware runs first on
every route; an allowed request then matches one of the four routes (the
express fallback for an unmatched route is a 404, whose HTML body is not
modelled). Returns the response and the outbound Slack calls issued. -/
def handleRequest (cfg : Config) (req : HttpRequest) (up : Upstream) :
    HttpResponse × List UpstreamCall :=
  match authMiddleware cfg req with
  | AuthResult.reject resp => (resp, [])
  | AuthResult.allow =>
    if req.httpMethod = "GET" ∧ req.path = "/health" then
      ({ status := 200, body := healthBody }, [])
    else if req.httpMethod = "GET" ∧ req.path = "/" then
      ({ status := 200, body := rootBody }, [])
    else if req.httpMethod = "GET" ∧ req.path = "/tools" then
      ({ status := 200, body := Json.obj [("tools", getToolsList)] }, [])
    else if req.httpMethod = "POST" ∧ req.path = "/mcp" then
      mcpPost req up
    else
      ({ status := 404, body := Json.null }, [])

/-- Whether one character list starts with another. -/
def strStarts : List Char → List Char → Bool
  | _, [] => true
  | [], _ :: _ => false
  | a :: as, b :: bs => a = b && strStarts as bs

/-- Whether a character list contains another as a contiguous run. -/
def strHas : List Char → List Char → Bool
  | [], pat => pat.isEmpty
  | a :: as, pat => strStarts (a :: as) pat || strHas as pat

/-- Substring containment on strings, by character lists. Used to state that
an error message names a header literally. -/
def containsStr (s pat : String) : Bool := strHas s.toList pat.toList

/-- What the per-id lookup of `getChannels` contributes for one id: the
looked-up channel when the call succeeds and passes the
ok/channel/not-archived filter, nothing otherwise. -/
def keepOf (up : Upstream) (bot : String) (id : String) : Option Json :=
  match up (UpstreamCall.conversationsInfo bot id) with
  | Except.ok d => keepChannel d
  | Except.error _ => none

/-! ### Concrete inputs for witnesses and counterexamples -/

/-- An oracle whose every call succeeds with a null body. -/
def upOkNull : Upstream := fun _ => Except.ok Json.null

/-- An oracle whose every call throws, modelling a network failure. -/
def upFail : Upstream := fun _ => Except.error ("network failure")

/-- A configuration with authentication off. -/
def cfgOpen : Config := { SECRET_KEY := "", REQUIRE_AUTH := false }

/-- A configuration requiring auth with secret "k". -/
def cfgAuth : Config := { SECRET_KEY := "k", REQUIRE_AUTH := true }

def req1 : HttpRequest :=
  { path := "/mcp", httpMethod := "POST",
    body := Json.obj [("jsonrpc", Json.str ("2.0")),
      ("method", Json.str ("tools/call")), ("id", Json.num 0)],
    xSecretKey := none, xSlackBotToken := some ("xoxb-t"),
    xSlackTeamId := some ("T1"), xSlackChannelIds := none }

def req2 : HttpRequest :=
  { path := "/mcp", httpMethod := "POST",
    body := Json.obj [("jsonrpc", Json.str ("2.0")),
      ("method", Json.str ("tools/call")), ("id", Json.num 2)],
    xSecretKey := some (""), xSlackBotToken := some ("xoxb-t"),
    xSlackTeamId := some ("T1"), xSlackChannelIds := none }

def req2good : HttpRequest :=
  { path := "/mcp", httpMethod := "POST",
    body := Json.obj [("jsonrpc", Json.str ("2.0")),
      ("method", Json.str ("tools/call")), ("id", Json.num 2)],
    xSecretKey := some ("k"), xSlackBotToken := some ("xoxb-t"),
    xSlackTeamId := some ("T1"), xSlackChannelIds := none }

def req3 : HttpRequest :=
  { path := "/mcp", httpMethod := "POST",
    body := Json.obj [("jsonrpc", Json.str ("2.0")),
      ("method", Json.str ("tools/call")),
      ("params", Json.obj [("name", Json.str ("slack_post_message")),
        ("arguments", Json.obj [("channel_id", Json.str ("C1")),
          ("text", Json.str ("hello"))])]),
      ("id", Json.num 3)],
    xSecretKey := none, xSlackBotToken := some ("xoxb-t"),
    xSlackTeamId := some ("T1"), xSlackChannelIds := none }

def req4 : HttpRequest :=
  { path := "/mcp", httpMethod := "POST",
    body := Json.obj [("method", Json.str ("tools/call")), ("id", Json.num 1)],
    xSecretKey := some ("wrong-key"), xSlackBotToken := none,
    xSlackTeamId := none, xSlackChannelIds := none }

def req5 : HttpRequest :=
  { path := "/mcp", httpMethod := "POST",
    body := Json.obj [("jsonrpc", Json.str ("2.0")),
      ("method", Json.str ("tools/call")),
      ("params", Json.obj [("name", Json.str ("slack_post_message"))]),
      ("id", Json.num 5)],
    xSecretKey := none, xSlackBotToken := none,
    xSlackTeamId := some ("T1"), xSlackChannelIds := none }

def chanC1 : Json :=
  Json.obj [("id", Json.str ("C1")), ("name", Json.str ("general")),
    ("is_archived", Json.bool false)]

def chanC2 : Json :=
  Json.obj [("id", Json.str ("C2")), ("name", Json.str ("old")),
    ("is_archived", Json.bool true)]

/-- An oracle for the fixed-channel-list witness: every `conversations.info`
lookup succeeds, returning a non-archived channel for C1 and an archived one
for C2. -/
def up6 : Upstream := fun call =>
  match call with
  | UpstreamCall.conversationsInfo _ id =>
      if id = "C1" then Except.ok (Json.obj [("ok", Json.bool true), ("channel", chanC1)])
      else Except.ok (Json.obj [("ok", Json.bool true), ("channel", chanC2)])
  | _ => Except.ok Json.null

def c6client : SlackClient :=
  { botToken := "tok", teamId := "T1", channelIds := some ("C1,C2") }

def req7 : HttpRequest :=
  { path := "/mcp", httpMethod := "POST",
    body := Json.obj [("jsonrpc", Json.str ("2.0")),
      ("method", Json.str ("tools/call")),
      ("params", Json.obj [("name", Json.str ("slack_nonexistent")),
        ("arguments", Json.obj [])]),
      ("id", Json.num 7)],
    xSecretKey := none, xSlackBotToken := some ("xoxb-t"),
    xSlackTeamId := some ("T1"), xSlackChannelIds := none }

def req8a : HttpRequest :=
  { path := "/mcp", httpMethod := "POST",
    body := Json.obj [("jsonrpc", Json.str ("2.0")),
      ("method", Json.str ("initialize")),
      ("params", Json.obj [("protocolVersion", Json.str ("1999-01-01"))]),
      ("id", Json.num 8)],
    xSecretKey := none, xSlackBotToken := none,
    xSlackTeamId := none, xSlackChannelIds := none }

def req8b : HttpRequest :=
  { path := "/mcp", httpMethod := "POST",
    body := Json.obj [("method", Json.str ("initialize")), ("id", Json.str ("b"))],
    xSecretKey := some ("zzz"), xSlackBotToken := some ("tokb"),
    xSlackTeamId := some ("T2"), xSlackChannelIds := some ("C9") }

def req8list : HttpRequest :=
  { path := "/mcp", httpMethod := "POST",
    body := Json.obj [("method", Json.str ("tools/list")), ("id", Json.num 88)],
    xSecretKey := none, xSlackBotToken := none,
    xSlackTeamId := none, xSlackChannelIds := none }

def c9args : Json := Json.obj [("limit", Json.num 500)]

def c9client : SlackClient := { botToken := "tok", teamId := "T1", channelIds := none }

def req10 : HttpRequest :=
  { path := "/mcp", httpMethod := "POST",
    body := Json.obj [("jsonrpc", Json.str ("2.0")),
      ("method", Json.str ("tools/call")),
      ("params", Json.obj [("name", Json.str ("slack_post_message"))]),
      ("id", Json.num 10)],
    xSecretKey := none, xSlackBotToken := some ("xoxb-t"),
    xSlackTeamId := some ("T1"), xSlackChannelIds := none }

/-! ### Helper lemmas about the response shapes -/

theorem rpcResult_get_error (v : Json) (rid : Option Json) :
    (rpcResponse ("result") v rid).get ("error") = none := by
  cases rid <;> rfl

theorem rpcResult_get_result (v : Json) (rid : Option Json) :
    (rpcResponse ("result") v rid).get ("result") = some v := by
  cases rid <;> rfl

theorem rpcResult_get_id (v : Json) (rid : Option Json) :
    (rpcResponse ("result") v rid).get ("id") = rid := by
  cases rid <;> rfl

theorem rpcError_get_error (v : Json) (rid : Option Json) :
    (rpcResponse ("error") v rid).get ("error") = some v := by
  cases rid <;> rfl

theorem rpcError_get_result (v : Json) (rid : Option Json) :
    (rpcResponse ("error") v rid).get ("result") = none := by
  cases rid <;> rfl

theorem rpcError_get_id (v : Json) (rid : Option Json) :
    (rpcResponse ("error") v rid).get ("id") = rid := by
  cases rid <;> rfl

/-- A body method can be string-equal to at most one method name. -/
theorem methodIs_ne {b : Json} {m m' : String} (h : methodIs b m = true)
    (hne : m' ≠ m) : methodIs b m' = false := by
  unfold methodIs at h ⊢
  match hb : b.get ("method") with
  | some (Json.str s) =>
    rw [hb] at h
    simp only [decide_eq_true_eq] at h
    subst h
    simp only [decide_eq_false_iff_not]
    exact fun hc => hne hc.symm
  | some Json.null | some (Json.bool _) | some (Json.num _)
  | some (Json.arr _) | some (Json.obj _) | none =>
    simp [hb] at h

/-- An allowed request is answered by the route matching the express
fall-through order. -/
theorem handleRequest_allow {cfg : Config} {req : HttpRequest} {up : Upstream}
    (hauth : authMiddleware cfg req = AuthResult.allow) :
    handleRequest cfg req up =
      (if req.httpMethod = "GET" ∧ req.path = "/health" then
        ({ status := 200, body := healthBody }, [])
      else if req.httpMethod = "GET" ∧ req.path = "/" then
        ({ status := 200, body := rootBody }, [])
      else if req.httpMethod = "GET" ∧ req.path = "/tools" then
        ({ status := 200, body := Json.obj [("tools", getToolsList)] }, [])
      else if req.httpMethod = "POST" ∧ req.path = "/mcp" then
        mcpPost req up
      else
        ({ status := 404, body := Json.null }, [])) := by
  unfold handleRequest
  rw [hauth]

/-- A rejected request is answered by the middleware's response, with no
upstream call. -/
theorem handleRequest_reject {cfg : Config} {req : HttpRequest} {up : Upstream}
    {resp : HttpResponse}
    (hauth : authMiddleware cfg req = AuthResult.reject resp) :
    handleRequest cfg req up = (resp, []) := by
  unfold handleRequest
  rw [hauth]

/-- An allowed `POST /mcp` request is answered by the `/mcp` handler. -/
theorem handleRequest_mcp {cfg : Config} {req : HttpRequest} {up : Upstream}
    (hauth : authMiddleware cfg req = AuthResult.allow)
    (hpath : req.path = "/mcp") (hverb : req.httpMethod = "POST") :
    handleRequest cfg req up = mcpPost req up := by
  rw [handleRequest_allow hauth]
  simp [hpath, hverb]

/-- The `/mcp` handler on a `tools/call` body with both credential headers
truthy: the tool runs and its value is wrapped as a 200 `result`. -/
theorem mcpPost_call {req : HttpRequest} {up : Upstream}
    (hm : methodIs req.body ("tools/call") = true)
    (hbt : jsFalsyStr req.xSlackBotToken = false)
    (htm : jsFalsyStr req.xSlackTeamId = false) :
    mcpPost req up =
      ({ status := 200,
         body := rpcResponse ("result")
           (handleToolCall (reqToolName req) (reqToolArgs req) (reqClient req) up).1
           (req.body.get ("id")) },
       (handleToolCall (reqToolName req) (reqToolArgs req) (reqClient req) up).2) := by
  unfold mcpPost
  have h1 : methodIs req.body ("initialize") = false := methodIs_ne hm (by decide)
  have h2 : methodIs req.body ("tools/list") = false := methodIs_ne hm (by decide)
  simp [h1, h2, hm, hbt, htm]

/-- The `/mcp` handler on a `tools/call` body with a falsy credential
header: the -32602 error, no calls. -/
theorem mcpPost_call_nocreds {req : HttpRequest} {up : Upstream}
    (hm : methodIs req.body ("tools/call") = true)
    (hcred : jsFalsyStr req.xSlackBotToken = true ∨ jsFalsyStr req.xSlackTeamId = true) :
    mcpPost req up =
      ({ status := 200,
         body := rpcResponse ("error") (errObj (-32602) credsMsg) (req.body.get ("id")) },
       []) := by
  unfold mcpPost
  have h1 : methodIs req.body ("initialize") = false := methodIs_ne hm (by decide)
  have h2 : methodIs req.body ("tools/list") = false := methodIs_ne hm (by decide)
  have hc : (jsFalsyStr req.xSlackBotToken || jsFalsyStr req.xSlackTeamId) = true := by
    rcases hcred with h | h <;> simp [h]
  simp [h1, h2, hm, hc]

/-- A `params.name` outside the dispatch table falls into the `default`
case: the handler throws (and later catches) `Unknown tool: <name>`, issuing
no upstream call. -/
theorem dispatch_unknown {t : Option Json} (args : Json) (c : SlackClient)
    (up : Upstream) (h : isKnownTool t = false) :
    dispatchTool t args c up = (Except.error ("Unknown tool: " ++ jsTemplate t), []) := by
  unfold dispatchTool
  match ht : toolStr t with
  | none => simp [ht]
  | some s =>
    unfold isKnownTool at h
    rw [ht] at h
    simp only [toolNames, decide_eq_false_iff_not, List.mem_cons,
      List.not_mem_nil, or_false] at h
    push_neg at h
    obtain ⟨h1, h2, h3, h4, h5, h6, h7, h8⟩ := h
    simp [ht, h1, h2, h3, h4, h5, h6, h7, h8]

/-- The caught unknown-tool message is nonempty, so
`error.message || String(error)` keeps it unchanged. -/
theorem jsErrMessage_unknown (s : String) :
    jsErrMessage ("Unknown tool: " ++ s) = "Unknown tool: " ++ s := by
  unfold jsErrMessage
  rw [if_neg]
  intro heq
  have hlen := congrArg String.length heq
  rw [String.length_append] at hlen
  have h14 : ("Unknown tool: " : String).length = 14 := rfl
  have h0 : ("" : String).length = 0 := rfl
  omega

/-! ### C4: fail-open when auth is required but no secret is configured -/

/-- C4: for every request, when REQUIRE_AUTH is true but the configured
SECRET_KEY is the empty string, the authentication gate allows the request
through, whatever the method and headers. -/
theorem claim4_fail_open (cfg : Config) (req : HttpRequest)
    (h1 : cfg.REQUIRE_AUTH = true) (h2 : cfg.SECRET_KEY = "") :
    authMiddleware cfg req = AuthResult.allow := by
  unfold authMiddleware
  simp [h1, h2]

/-- C4 witness: a concrete tools/call request with a wrong key header is
allowed through under an empty configured secret. -/
theorem claim4_witness :
    (Config.mk ("") true).REQUIRE_AUTH = true
    ∧ (Config.mk ("") true).SECRET_KEY = ""
    ∧ authMiddleware (Config.mk ("") true) req4 = AuthResult.allow :=
  ⟨rfl, rfl, claim4_fail_open (Config.mk ("") true) req4 rfl rfl⟩

/-! ### C9: the users-list limit -/

/-- C9: every `slack_get_users` dispatch issues exactly one users-list call
whose limit is `min(limit, 200)` when a numeric limit argument is given and
100 when it is absent; that limit never exceeds 200. -/
theorem claim9_users_limit (args : Json) (c : SlackClient) (up : Upstream) :
    (dispatchTool (some (Json.str ("slack_get_users"))) args c up).2
      = [UpstreamCall.usersList c.botToken (min ((argNum args ("limit")).getD 100) 200)
          c.teamId (truthyCursor (argStr args ("cursor")))]
    ∧ (∀ l : Int, argNum args ("limit") = some l →
        min ((argNum args ("limit")).getD 100) 200 = min l 200)
    ∧ (argNum args ("limit") = none →
        min ((argNum args ("limit")).getD 100) 200 = 100)
    ∧ min ((argNum args ("limit")).getD 100) 200 ≤ 200 := by
  refine ⟨rfl, ?_, ?_, min_le_right _ _⟩
  · intro l hl; rw [hl]; rfl
  · intro h; rw [h]; rfl

/-- C9 witness: with limit 500 the single users-list call carries limit 200. -/
theorem claim9_witness :
    (dispatchTool (some (Json.str ("slack_get_users"))) c9args c9client upOkNull).2
      = [UpstreamCall.usersList (("tok")) (min ((argNum c9args ("limit")).getD 100) 200)
          (("T1")) (truthyCursor (argStr c9args ("cursor")))]
    ∧ argNum c9args ("limit") = some 500
    ∧ min ((argNum c9args ("limit")).getD 100) 200 = min 500 200
    ∧ min ((argNum c9args ("limit")).getD 100) 200 ≤ 200 :=
  ⟨(claim9_users_limit c9args c9client upOkNull).1, rfl,
   (claim9_users_limit c9args c9client upOkNull).2.1 500 rfl,
   (claim9_users_limit c9args c9client upOkNull).2.2.2⟩

/-! ### C7: unknown tool names surface as tool-level failures -/

/-- C7: a `tools/call` whose `params.name` matches no tool in the dispatch
table (here one that reaches dispatch: allowed by the gate, both credential
headers truthy) is answered with HTTP 200 and a JSON-RPC `result` — not a
top-level `error` — whose payload is the tool-level failure
`Unknown tool: <name>` with status "failed"; no upstream call is issued and
the handler, being a total function, cannot crash. -/
theorem claim7_unknown_tool (cfg : Config) (req : HttpRequest) (up : Upstream)
    (hauth : authMiddleware cfg req = AuthResult.allow)
    (hpath : req.path = "/mcp") (hverb : req.httpMethod = "POST")
    (hm : methodIs req.body ("tools/call") = true)
    (hbt : jsFalsyStr req.xSlackBotToken = false)
    (htm : jsFalsyStr req.xSlackTeamId = false)
    (hname : isKnownTool (reqToolName req) = false) :
    (handleRequest cfg req up).1.status = 200
    ∧ (handleRequest cfg req up).1.body.get ("error") = none
    ∧ (handleRequest cfg req up).1.body.get ("result")
        = some (contentResult (failedJson
            ("Unknown tool: " ++ jsTemplate (reqToolName req))))
    ∧ (handleRequest cfg req up).2 = [] := by
  rw [handleRequest_mcp hauth hpath hverb, mcpPost_call hm hbt htm]
  have hd := dispatch_unknown (reqToolArgs req) (reqClient req) up hname
  refine ⟨rfl, ?_, ?_, ?_⟩
  · exact rpcResult_get_error _ _
  · show (rpcResponse ("result") _ _).get ("result") = _
    rw [rpcResult_get_result]
    simp [handleToolCall, hd, jsErrMessage_unknown]
  · simp [handleToolCall, hd]

/-- C7 witness: the tool name "slack_nonexistent" yields the tool-level
Unknown tool failure on a concrete request. -/
theorem claim7_witness :
    authMiddleware cfgOpen req7 = AuthResult.allow
    ∧ methodIs req7.body ("tools/call") = true
    ∧ jsFalsyStr req7.xSlackBotToken = false
    ∧ jsFalsyStr req7.xSlackTeamId = false
    ∧ isKnownTool (reqToolName req7) = false
    ∧ (handleRequest cfgOpen req7 upOkNull).1.status = 200
    ∧ (handleRequest cfgOpen req7 upOkNull).1.body.get ("error") = none
    ∧ (handleRequest cfgOpen req7 upOkNull).1.body.get ("result")
        = some (contentResult (failedJson
            ("Unknown tool: " ++ jsTemplate (reqToolName req7))))
    ∧ (handleRequest cfgOpen req7 upOkNull).2 = [] := by
  have h := claim7_unknown_tool cfgOpen req7 upOkNull rfl rfl rfl rfl rfl rfl rfl
  exact ⟨rfl, rfl, rfl, rfl, rfl, h.1, h.2.1, h.2.2.1, h.2.2.2⟩

/-! ### C3: tool-call failures become soft-failure results -/

/-- C3: for every request reaching dispatch and every tool name, when the
tool's execution throws (here: the dispatch outcome is `Except.error e`,
which covers upstream network failures of every tool and the unknown-tool
throw), the exception is caught and converted into an HTTP 200 JSON-RPC
`result` whose content[0] is the `type: "text"` serialization of
the error/status-"failed" payload; no JSON-RPC `error` object and no 5xx
status is ever produced on this path. -/
theorem claim3_tool_failure (cfg : Config) (req : HttpRequest) (up : Upstream)
    (e : String)
    (hauth : authMiddleware cfg req = AuthResult.allow)
    (hpath : req.path = "/mcp") (hverb : req.httpMethod = "POST")
    (hm : methodIs req.body ("tools/call") = true)
    (hbt : jsFalsyStr req.xSlackBotToken = false)
    (htm : jsFalsyStr req.xSlackTeamId = false)
    (herr : (dispatchTool (reqToolName req) (reqToolArgs req) (reqClient req) up).1
      = Except.error e) :
    (handleRequest cfg req up).1.status = 200
    ∧ (handleRequest cfg req up).1.body.get ("error") = none
    ∧ (handleRequest cfg req up).1.body.get ("result")
        = some (contentResult (failedJson (jsErrMessage e))) := by
  rw [handleRequest_mcp hauth hpath hverb, mcpPost_call hm hbt htm]
  cases hdp : dispatchTool (reqToolName req) (reqToolArgs req) (reqClient req) up with
  | mk r calls =>
    rw [hdp] at herr
    simp only at herr
    subst herr
    refine ⟨rfl, rpcResult_get_error _ _, ?_⟩
    rw [rpcResult_get_result]
    simp [handleToolCall, hdp]

/-- C3 witness: a network failure during a concrete `slack_post_message`
call surfaces as a 200 result with the failed payload. -/
theorem claim3_witness :
    (dispatchTool (reqToolName req3) (reqToolArgs req3) (reqClient req3) upFail).1
      = Except.error ("network failure")
    ∧ (handleRequest cfgOpen req3 upFail).1.status = 200
    ∧ (handleRequest cfgOpen req3 upFail).1.body.get ("error") = none
    ∧ (handleRequest cfgOpen req3 upFail).1.body.get ("result")
        = some (contentResult (failedJson (jsErrMessage ("network failure")))) := by
  have h := claim3_tool_failure cfgOpen req3 upFail ("network failure")
    rfl rfl rfl rfl rfl rfl rfl
  exact ⟨rfl, h.1, h.2.1, h.2.2⟩

/-! ### C5: missing Slack credential headers -/

/-- C5: a `tools/call` request that passes the auth gate but lacks the
`x-slack-bot-token` or the `x-slack-team-id` header is answered with a
JSON-RPC `error` of code -32602 whose message literally names both headers,
with no `result` member, the request id echoed verbatim, and no upstream
call issued. -/
theorem claim5_missing_creds (cfg : Config) (req : HttpRequest) (up : Upstream)
    (hauth : authMiddleware cfg req = AuthResult.allow)
    (hpath : req.path = "/mcp") (hverb : req.httpMethod = "POST")
    (hm : methodIs req.body ("tools/call") = true)
    (hcred : req.xSlackBotToken = none ∨ req.xSlackTeamId = none) :
    (handleRequest cfg req up).1.body.get ("error") = some (errObj (-32602) credsMsg)
    ∧ containsStr credsMsg ("x-slack-bot-token") = true
    ∧ containsStr credsMsg ("x-slack-team-id") = true
    ∧ (handleRequest cfg req up).1.body.get ("result") = none
    ∧ (handleRequest cfg req up).1.body.get ("id") = req.body.get ("id")
    ∧ (handleRequest cfg req up).2 = [] := by
  have hc : jsFalsyStr req.xSlackBotToken = true ∨ jsFalsyStr req.xSlackTeamId = true := by
    rcases hcred with h | h
    · exact Or.inl (by rw [h]; rfl)
    · exact Or.inr (by rw [h]; rfl)
  rw [handleRequest_mcp hauth hpath hverb, mcpPost_call_nocreds hm hc]
  exact ⟨rpcError_get_error _ _, by decide, by decide,
    rpcError_get_result _ _, rpcError_get_id _ _, rfl⟩

/-- C5 witness: a concrete `slack_post_message` call with the bot-token
header absent gets the -32602 error, id echoed, no upstream call. -/
theorem claim5_witness :
    req5.xSlackBotToken = none
    ∧ (handleRequest cfgOpen req5 upOkNull).1.body.get ("error")
        = some (errObj (-32602) credsMsg)
    ∧ (handleRequest cfgOpen req5 upOkNull).1.body.get ("result") = none
    ∧ (handleRequest cfgOpen req5 upOkNull).1.body.get ("id") = some (Json.num 5)
    ∧ (handleRequest cfgOpen req5 upOkNull).2 = [] := by
  have h := claim5_missing_creds cfgOpen req5 upOkNull rfl rfl rfl rfl (Or.inl rfl)
  exact ⟨rfl, h.1, h.2.2.2.1, Eq.trans h.2.2.2.2.1 rfl, h.2.2.2.2.2⟩

/-! ### C6: the fixed-channel-list branch of getChannels -/

/-- When every per-id lookup succeeds, the lookup loop returns the kept
channels in id order and issues exactly one `conversations.info` call per
id, in order. -/
theorem lookupLoop_ok (up : Upstream) (bot : String) :
    ∀ ids : List String,
      (∀ id ∈ ids, ∃ d, up (UpstreamCall.conversationsInfo bot id) = Except.ok d) →
      lookupLoop up bot ids
        = (Except.ok (ids.filterMap (keepOf up bot)),
           ids.map (UpstreamCall.conversationsInfo bot))
  | [], _ => rfl
  | id :: rest, h => by
    obtain ⟨d, hd⟩ := h id (List.mem_cons_self id rest)
    have ih := lookupLoop_ok up bot rest (fun i hi => h i (List.mem_cons_of_mem _ hi))
    unfold lookupLoop
    simp only [hd, ih, List.filterMap_cons, List.map_cons, keepOf]
    cases keepChannel d <;> rfl

/-- C6: a `slack_list_channels` execution on a client with a non-empty
channel-ids header performs one `conversations.info` lookup per
comma-separated id, sequentially in header order, never calls the paginated
`conversations.list` endpoint, and (when every lookup succeeds) returns the
ok/channels/empty-next-cursor object whose channels are the looked-up
channels in header order, omitting every channel that fails the
ok/channel/not-archived filter (in particular every archived one). -/
theorem claim6_fixed_channels (c : SlackClient) (up : Upstream)
    (limit : Option Int) (cursor : Option String) (s : String)
    (hc : c.channelIds = some s) (hs : s ≠ "")
    (hok : ∀ id ∈ idsOf s, ∃ d, up (UpstreamCall.conversationsInfo c.botToken id) = Except.ok d) :
    c.getChannels up limit cursor
      = (Except.ok (listChannelsResult ((idsOf s).filterMap (keepOf up c.botToken))),
         (idsOf s).map (UpstreamCall.conversationsInfo c.botToken))
    ∧ ∀ call ∈ (c.getChannels up limit cursor).2,
        ∀ tok lim tid cur, call ≠ UpstreamCall.conversationsList tok lim tid cur := by
  have hloop := lookupLoop_ok up c.botToken (idsOf s) hok
  have hmain : c.getChannels up limit cursor
      = (Except.ok (listChannelsResult ((idsOf s).filterMap (keepOf up c.botToken))),
         (idsOf s).map (UpstreamCall.conversationsInfo c.botToken)) := by
    unfold SlackClient.getChannels
    rw [hc]
    simp only [predef, if_neg hs, hloop]
  refine ⟨hmain, ?_⟩
  rw [hmain]
  intro call hcall tok lim tid cur
  simp only [List.mem_map] at hcall
  obtain ⟨id, _, hid⟩ := hcall
  rw [← hid]
  intro hcontra
  exact UpstreamCall.noConfusion hcontra

/-- C6 witness: header "C1,C2", both lookups succeed, C2 archived — the
result keeps only C1's channel, the two info calls happen in order, and a
direct evaluation shows the concrete channels list. -/
theorem claim6_witness :
    c6client.channelIds = some ("C1,C2")
    ∧ (("C1,C2" : String) ≠ "")
    ∧ c6client.getChannels up6 none none
        = (Except.ok (listChannelsResult ((idsOf ("C1,C2")).filterMap (keepOf up6 ("tok")))),
           (idsOf ("C1,C2")).map (UpstreamCall.conversationsInfo ("tok"))) := by
  refine ⟨rfl, by decide, ?_⟩
  exact (claim6_fixed_channels c6client up6 none none ("C1,C2") rfl (by decide)
    (fun id hid => by
      by_cases h : id = "C1"
      · exact ⟨Json.obj [("ok", Json.bool true), ("channel", chanC1)], by simp [up6, h]⟩
      · exact ⟨Json.obj [("ok", Json.bool true), ("channel", chanC2)], by simp [up6, h]⟩)).1

/-! ### C8: discovery methods are open and the initialize result is fixed -/

/-- A request whose body method is not the string "tools/call" is never
rejected by the middleware, whatever the configuration and headers. -/
theorem authMiddleware_allow_not_call (cfg : Config) (req : HttpRequest)
    (h : methodIs req.body ("tools/call") = false) :
    authMiddleware cfg req = AuthResult.allow := by
  unfold authMiddleware
  simp [h]

/-- An allowed `initialize` request is answered 200 with the fixed result
and the id echoed. -/
theorem handleRequest_init (cfg : Config) (req : HttpRequest) (up : Upstream)
    (hp : req.path = "/mcp") (hv : req.httpMethod = "POST")
    (hm : methodIs req.body ("initialize") = true) :
    handleRequest cfg req up
      = ({ status := 200,
           body := rpcResponse ("result") initResult (req.body.get ("id")) }, []) := by
  have hnc : methodIs req.body ("tools/call") = false := methodIs_ne hm (by decide)
  rw [handleRequest_mcp (authMiddleware_allow_not_call cfg req hnc) hp hv]
  unfold mcpPost
  simp [hm]

/-- C8: a `POST /mcp` body with method "initialize" or "tools/list" is
answered HTTP 200 under every auth configuration and every header
combination; moreover the "initialize" result is the fixed descriptor, so
any two initialize requests (any configs, bodies, headers, oracles) receive
identical results. -/
theorem claim8_discovery (cfg cfg2 : Config) (req req2 : HttpRequest)
    (up up2 : Upstream)
    (hpath : req.path = "/mcp") (hverb : req.httpMethod = "POST")
    (hpath2 : req2.path = "/mcp") (hverb2 : req2.httpMethod = "POST") :
    (methodIs req.body ("initialize") = true →
       (handleRequest cfg req up).1.status = 200
       ∧ (handleRequest cfg req up).1.body.get ("result") = some initResult)
    ∧ (methodIs req.body ("tools/list") = true →
       (handleRequest cfg req up).1.status = 200)
    ∧ (methodIs req.body ("initialize") = true →
       methodIs req2.body ("initialize") = true →
       (handleRequest cfg req up).1.body.get ("result")
         = (handleRequest cfg2 req2 up2).1.body.get ("result")) := by
  refine ⟨?_, ?_, ?_⟩
  · intro hm
    rw [handleRequest_init cfg req up hpath hverb hm]
    exact ⟨rfl, rpcResult_get_result _ _⟩
  · intro hm
    have hnc : methodIs req.body ("tools/call") = false := methodIs_ne hm (by decide)
    have hni : methodIs req.body ("initialize") = false := methodIs_ne hm (by decide)
    rw [handleRequest_mcp (authMiddleware_allow_not_call cfg req hnc) hpath hverb]
    unfold mcpPost
    simp [hm, hni]
  · intro hm hm2
    rw [handleRequest_init cfg req up hpath hverb hm,
      handleRequest_init cfg2 req2 up2 hpath2 hverb2 hm2,
      rpcResult_get_result, rpcResult_get_result]

/-- C8 witness: two concrete initialize requests differing in params, id,
headers, oracle and auth configuration get status 200 and identical
results; a tools/list request under strict auth with no headers also gets
200. -/
theorem claim8_witness :
    methodIs req8a.body ("initialize") = true
    ∧ methodIs req8b.body ("initialize") = true
    ∧ methodIs req8list.body ("tools/list") = true
    ∧ (handleRequest cfgAuth req8a upOkNull).1.status = 200
    ∧ (handleRequest cfgAuth req8a upOkNull).1.body.get ("result") = some initResult
    ∧ (handleRequest cfgAuth req8list upFail).1.status = 200
    ∧ (handleRequest cfgAuth req8a upOkNull).1.body.get ("result")
        = (handleRequest cfgOpen req8b upFail).1.body.get ("result") := by
  have h := claim8_discovery cfgAuth cfgOpen req8a req8b upOkNull upFail rfl rfl rfl rfl
  have hl := claim8_discovery cfgAuth cfgAuth req8list req8b upFail upFail rfl rfl rfl rfl
  exact ⟨rfl, rfl, rfl, (h.1 rfl).1, (h.1 rfl).2, hl.2.1 rfl, h.2.2 rfl rfl⟩

/-! ### C2: the shared-secret gate on tools/call -/

/-- C2 amended: with auth required and a non-empty secret configured, a
`POST /mcp` body with method `tools/call` is rejected 401 with code -32001 with
"Authentication required for tool execution" when the `x-secret-key` header
is absent OR PRESENT WITH AN EMPTY VALUE (the code tests `!providedKey`,
which identifies an empty header with a missing one), rejected 401 with code -32001
with "Invalid authentication for tool execution" when the header is present
with a non-empty value different from the secret, and passed on to dispatch
when the header equals the secret exactly. -/
theorem claim2_amended (cfg : Config) (req : HttpRequest) (up : Upstream)
    (hra : cfg.REQUIRE_AUTH = true) (hsk : cfg.SECRET_KEY ≠ "")
    (hpath : req.path = "/mcp") (hverb : req.httpMethod = "POST")
    (hm : methodIs req.body ("tools/call") = true) :
    ((req.xSecretKey = none ∨ req.xSecretKey = some ("")) →
       handleRequest cfg req up
         = (authReject (-32001) ("Authentication required for tool execution") req, []))
    ∧ (∀ k, req.xSecretKey = some k → k ≠ "" → k ≠ cfg.SECRET_KEY →
       handleRequest cfg req up
         = (authReject (-32001) ("Invalid authentication for tool execution") req, []))
    ∧ (req.xSecretKey = some cfg.SECRET_KEY →
       authMiddleware cfg req = AuthResult.allow
       ∧ handleRequest cfg req up = mcpPost req up) := by
  refine ⟨?_, ?_, ?_⟩
  · intro hk
    have hf : jsFalsyStr req.xSecretKey = true := by
      rcases hk with h | h <;> rw [h] <;> rfl
    have hmid : authMiddleware cfg req
        = AuthResult.reject
            (authReject (-32001) ("Authentication required for tool execution") req) := by
      unfold authMiddleware
      simp [hra, hsk, hpath, hverb, hm, hf]
    unfold handleRequest
    rw [hmid]
  · intro k hk hk1 hk2
    have hf : jsFalsyStr req.xSecretKey = false := by
      rw [hk]; simp [jsFalsyStr, hk1]
    have hne : req.xSecretKey ≠ some cfg.SECRET_KEY := by
      rw [hk]
      intro hcon
      exact hk2 (Option.some.inj hcon)
    have hmid : authMiddleware cfg req
        = AuthResult.reject
            (authReject (-32001) ("Invalid authentication for tool execution") req) := by
      unfold authMiddleware
      simp [hra, hsk, hpath, hverb, hm, hf, hne]
    unfold handleRequest
    rw [hmid]
  · intro hk
    have hmid : authMiddleware cfg req = AuthResult.allow := by
      unfold authMiddleware
      simp [hra, hsk, hpath, hverb, hm, hk, jsFalsyStr]
    exact ⟨hmid, handleRequest_mcp hmid hpath hverb⟩

/-- C2 counterexample: an `x-secret-key` header that is present with an
empty value is not equal to the configured secret "k", yet the response
message is "Authentication required for tool execution", not the
"Invalid authentication for tool execution" the claim asserts for every
present-but-mismatched header. -/
theorem claim2_counterexample :
    req2.xSecretKey = some ("")
    ∧ req2.xSecretKey ≠ some cfgAuth.SECRET_KEY
    ∧ (handleRequest cfgAuth req2 upOkNull).1.status = 401
    ∧ (handleRequest cfgAuth req2 upOkNull).1.body.get ("error")
        = some (errObj (-32001) ("Authentication required for tool execution"))
    ∧ ("Authentication required for tool execution" : String)
        ≠ "Invalid authentication for tool execution" :=
  ⟨rfl, by decide, rfl, rfl, by decide⟩

/-- C2 witness: the empty-header request is rejected with the
"Authentication required" message, and a request carrying exactly the
configured secret is allowed through to dispatch. -/
theorem claim2_witness :
    cfgAuth.REQUIRE_AUTH = true
    ∧ cfgAuth.SECRET_KEY ≠ ""
    ∧ methodIs req2.body ("tools/call") = true
    ∧ handleRequest cfgAuth req2 upOkNull
        = (authReject (-32001) ("Authentication required for tool execution") req2, [])
    ∧ req2good.xSecretKey = some cfgAuth.SECRET_KEY
    ∧ authMiddleware cfgAuth req2good = AuthResult.allow
    ∧ handleRequest cfgAuth req2good upOkNull = mcpPost req2good upOkNull := by
  have h := claim2_amended cfgAuth req2 upOkNull rfl (by decide) rfl rfl rfl
  have h2 := claim2_amended cfgAuth req2good upOkNull rfl (by decide) rfl rfl rfl
  exact ⟨rfl, by decide, rfl, h.1 (Or.inr rfl), rfl, (h2.2.2 rfl).1, (h2.2.2 rfl).2⟩

/-! ### C1: id echoing across response paths -/

/-- The middleware either allows, or rejects with one of its two 401
responses. -/
theorem authMiddleware_cases (cfg : Config) (req : HttpRequest) :
    authMiddleware cfg req = AuthResult.allow
    ∨ authMiddleware cfg req
        = AuthResult.reject
            (authReject (-32001) ("Authentication required for tool execution") req)
    ∨ authMiddleware cfg req
        = AuthResult.reject
            (authReject (-32001) ("Invalid authentication for tool execution") req) := by
  unfold authMiddleware
  repeat' split
  all_goals first
    | exact Or.inl rfl
    | exact Or.inr (Or.inl rfl)
    | exact Or.inr (Or.inr rfl)

/-- Every response of the main `/mcp` handler carries HTTP status 200. -/
theorem mcpPost_status (req : HttpRequest) (up : Upstream) :
    (mcpPost req up).1.status = 200 := by
  unfold mcpPost
  repeat' split
  all_goals rfl

/-- Every response of the main `/mcp` handler echoes the request id
verbatim (omitting the member when the id was absent). -/
theorem mcpPost_get_id (req : HttpRequest) (up : Upstream) :
    (mcpPost req up).1.body.get ("id") = req.body.get ("id") := by
  unfold mcpPost
  repeat' split
  all_goals first
    | exact rpcResult_get_id _ _
    | exact rpcError_get_id _ _

/-- C1 amended: on every non-401 response path of `POST /mcp` (success
results and the -32602 and -32601 errors) the request `id` — including 0,
"abc" and null — is echoed verbatim; on the two 401 authentication
rejections, and likewise in the -32603 internal-error responder, the `id`
field instead carries `req.body.id || null`, so a truthy id and an id of
null appear unchanged but a falsy id such as 0 (or "" or false) is replaced
by null. -/
theorem claim1_amended (cfg : Config) (req : HttpRequest) (up : Upstream)
    (hpath : req.path = "/mcp") (hverb : req.httpMethod = "POST") :
    ((handleRequest cfg req up).1.status = 401 →
       (handleRequest cfg req up).1.body.get ("id")
         = some (jsOrNull (req.body.get ("id"))))
    ∧ ((handleRequest cfg req up).1.status ≠ 401 →
       (handleRequest cfg req up).1.body.get ("id") = req.body.get ("id"))
    ∧ (∀ msg, (internalErrorResponse req msg).body.get ("id")
         = some (jsOrNull (req.body.get ("id")))) := by
  refine ?_
  rcases authMiddleware_cases cfg req with hmid | hmid | hmid
  · rw [handleRequest_mcp hmid hpath hverb]
    refine ⟨?_, fun _ => mcpPost_get_id req up, fun msg => rfl⟩
    intro h
    rw [mcpPost_status req up] at h
    exact absurd h (by decide)
  · unfold handleRequest
    rw [hmid]
    exact ⟨fun _ => rfl, fun h => absurd rfl h, fun msg => rfl⟩
  · unfold handleRequest
    rw [hmid]
    exact ⟨fun _ => rfl, fun h => absurd rfl h, fun msg => rfl⟩

/-- C1 counterexample: a `tools/call` request with id 0 and no
`x-secret-key` header, under required auth with secret "k", is answered 401
with `id: null` — the id 0 does not appear unchanged on this error path. -/
theorem claim1_counterexample :
    req1.body.get ("id") = some (Json.num 0)
    ∧ (handleRequest cfgAuth req1 upOkNull).1.status = 401
    ∧ (handleRequest cfgAuth req1 upOkNull).1.body.get ("id") = some Json.null :=
  ⟨rfl, rfl, rfl⟩

/-- C1 witness: the amended statement applied to the id-0 request (401
path) and to the internal-error responder. -/
theorem claim1_witness :
    req1.path = "/mcp"
    ∧ req1.httpMethod = "POST"
    ∧ (handleRequest cfgAuth req1 upOkNull).1.body.get ("id")
        = some (jsOrNull (req1.body.get ("id")))
    ∧ (internalErrorResponse req1 ("boom")).body.get ("id")
        = some (jsOrNull (req1.body.get ("id"))) :=
  ⟨rfl, rfl, (claim1_amended cfgAuth req1 upOkNull rfl rfl).1 rfl,
   (claim1_amended cfgAuth req1 upOkNull rfl rfl).2.2 ("boom")⟩

/-! ### C10: no argument-schema validation -/

/-- `slack_post_message` dispatch: exactly one `chat.postMessage` call
carrying the raw `channel_id` and `text` argument values, present or not. -/
theorem dispatch_post (args : Json) (c : SlackClient) (up : Upstream) :
    dispatchTool (some (Json.str ("slack_post_message"))) args c up
      = (up (UpstreamCall.chatPostMessage c.botToken
            (args.get ("channel_id")) (args.get ("text"))),
         [UpstreamCall.chatPostMessage c.botToken
            (args.get ("channel_id")) (args.get ("text"))]) := rfl

/-- With both credential headers truthy, no `/mcp` response ever carries a
-32602 error. -/
theorem no32602_mcpPost (req : HttpRequest) (up : Upstream)
    (hbt : jsFalsyStr req.xSlackBotToken = false)
    (htm : jsFalsyStr req.xSlackTeamId = false) (m : String) :
    (mcpPost req up).1.body.get ("error") ≠ some (errObj (-32602) m) := by
  unfold mcpPost
  split
  · simp [rpcResult_get_error]
  split
  · simp [rpcResult_get_error]
  split
  · split
    next hcond =>
      rw [hbt, htm] at hcond
      exact absurd hcond (by decide)
    next =>
      simp [rpcResult_get_error]
  · intro hcon
    rw [rpcError_get_error] at hcon
    simp [errObj] at hcon

/-- With both credential headers truthy, no response of the whole pipeline
carries a -32602 error: header absence is its only trigger. -/
theorem no32602_with_creds (cfg : Config) (req : HttpRequest) (up : Upstream)
    (hbt : jsFalsyStr req.xSlackBotToken = false)
    (htm : jsFalsyStr req.xSlackTeamId = false) (m : String) :
    (handleRequest cfg req up).1.body.get ("error") ≠ some (errObj (-32602) m) := by
  rcases authMiddleware_cases cfg req with hmid | hmid | hmid
  · rw [handleRequest_allow hmid]
    split
    · exact fun hcon => Option.noConfusion hcon
    split
    · exact fun hcon => Option.noConfusion hcon
    split
    · exact fun hcon => Option.noConfusion hcon
    split
    · exact no32602_mcpPost req up hbt htm m
    · exact fun hcon => Option.noConfusion hcon
  · rw [handleRequest_reject hmid]
    intro hcon
    have h1 := Option.some.inj hcon
    simp [errObj] at h1
  · rw [handleRequest_reject hmid]
    intro hcon
    have h1 := Option.some.inj hcon
    simp [errObj] at h1

/-- C10 (implicit): the server never validates `tools/call` arguments
against the declared schemas — an absent `params.arguments` becomes the
empty object, and a `slack_post_message` call with missing required fields
still constructs the client and issues the upstream call with the (absent)
raw values, producing a 200 `result` and no protocol-level error; with both
credential headers present, no request whatsoever yields a -32602 error. -/
theorem claim10_no_validation (cfg : Config) (req : HttpRequest) (up : Upstream)
    (hauth : authMiddleware cfg req = AuthResult.allow)
    (hpath : req.path = "/mcp") (hverb : req.httpMethod = "POST")
    (hm : methodIs req.body ("tools/call") = true)
    (hbt : jsFalsyStr req.xSlackBotToken = false)
    (htm : jsFalsyStr req.xSlackTeamId = false)
    (hname : reqToolName req = some (Json.str ("slack_post_message"))) :
    ((jsOrEmptyObj (req.body.get ("params"))).get ("arguments") = none →
       reqToolArgs req = Json.obj [])
    ∧ (handleRequest cfg req up).2
        = [UpstreamCall.chatPostMessage (reqClient req).botToken
            ((reqToolArgs req).get ("channel_id")) ((reqToolArgs req).get ("text"))]
    ∧ (handleRequest cfg req up).1.status = 200
    ∧ (handleRequest cfg req up).1.body.get ("error") = none
    ∧ (∃ r, (handleRequest cfg req up).1.body.get ("result") = some r)
    ∧ (∀ cfg2 req2 up2 (m : String), req2.path = "/mcp" → req2.httpMethod = "POST" →
        jsFalsyStr req2.xSlackBotToken = false → jsFalsyStr req2.xSlackTeamId = false →
        (handleRequest cfg2 req2 up2).1.body.get ("error") ≠ some (errObj (-32602) m)) := by
  rw [handleRequest_mcp hauth hpath hverb, mcpPost_call hm hbt htm, hname]
  refine ⟨?_, ?_, rfl, rpcResult_get_error _ _, ⟨_, rpcResult_get_result _ _⟩, ?_⟩
  · intro h
    unfold reqToolArgs
    rw [h]
    rfl
  · unfold handleToolCall
    rw [dispatch_post]
    cases up (UpstreamCall.chatPostMessage (reqClient req).botToken
      ((reqToolArgs req).get ("channel_id")) ((reqToolArgs req).get ("text"))) <;> rfl
  · intro cfg2 req2 up2 m _ _ hbt2 htm2
    exact no32602_with_creds cfg2 req2 up2 hbt2 htm2 m

/-- C10 witness: a `slack_post_message` call with no `arguments` member at
all still issues the upstream post with both fields absent and is answered
with a 200 result. -/
theorem claim10_witness :
    reqToolName req10 = some (Json.str ("slack_post_message"))
    ∧ (jsOrEmptyObj (req10.body.get ("params"))).get ("arguments") = none
    ∧ reqToolArgs req10 = Json.obj []
    ∧ (handleRequest cfgOpen req10 upOkNull).2
        = [UpstreamCall.chatPostMessage (reqClient req10).botToken
            ((reqToolArgs req10).get ("channel_id")) ((reqToolArgs req10).get ("text"))]
    ∧ (handleRequest cfgOpen req10 upOkNull).1.status = 200
    ∧ (handleRequest cfgOpen req10 upOkNull).1.body.get ("error") = none := by
  have h := claim10_no_validation cfgOpen req10 upOkNull rfl rfl rfl rfl rfl rfl rfl
  exact ⟨rfl, rfl, h.1 rfl, h.2.1, h.2.2.1, h.2.2.2.1⟩

end SlackMcp
